import Mathlib

/-!
Verification of the cartola-mensagens server core
====

Shallow embedding of the credential lifecycle, resilient fetch, round-points
cache and monthly aggregation logic of the repository's server variants
(`src/server.js` and `src/unnamed/part_000`), together with theorems settling
the specification claims.

JSON values are modelled by an inductive `Json` type whose numbers are
rationals: `JSON.parse` can only ever produce finite numbers (JSON has no
`NaN`/`Infinity` literals), so every number reachable from a parsed response
body is finite.  JavaScript `Number(...)` coercions that produce a non-finite
result (`NaN`, `±Infinity`) are modelled as `none`, which is faithful for the
code at hand because the only consumer of a coerced value is a
`Number.isFinite` test.
-/

/-- A JSON value as produced by `JSON.parse` on a response body.  Object
fields are an association list; parsed objects have at most one binding per
name (on duplicate keys `JSON.parse` keeps only the last). -/
inductive Json where
  | null : Json
  | bool (b : Bool) : Json
  | num (q : ℚ) : Json
  | str (s : String) : Json
  | arr (elems : List Json) : Json
  | obj (fields : List (String × Json)) : Json

/-- JavaScript truthiness of a value (`if (v)`): `null`, `false`, `0` and the
empty string are falsy; every object and array is truthy. -/
def jsTruthy : Json → Bool
  | .null => false
  | .bool b => b
  | .num q => q != 0
  | .str s => s != ""
  | .arr _ => true
  | .obj _ => true

/-- Predicate `Json.isNull v` models the JavaScript test `v === null`. -/
def Json.isNull : Json → Bool
  | .null => true
  | _ => false

/-- Property access `v.name` on a parsed JSON value: yields the field of an
object, and `undefined` (modelled as `none`) on everything else — JSON-parsed
arrays, numbers, strings and booleans carry no string-named own properties
that the code reads. -/
def jsGetField : Json → String → Option Json
  | .obj fields, name => fields.lookup name
  | _, _ => none

/-- Optional chaining `v?.name`: `undefined` when `v` is `null`/`undefined`,
otherwise plain property access. -/
def jsOptChain (v : Option Json) (name : String) : Option Json :=
  match v with
  | none => none
  | some .null => none
  | some j => jsGetField j name

/-- Helper `asNum v` is `some q` exactly when the JavaScript test
`typeof v === "number"` succeeds on the (present) value `v`. -/
def asNum : Option Json → Option ℚ
  | some (.num q) => some q
  | _ => none

/-- First-defined choice between two optional rationals, modelling an
early-`return` fallback chain. -/
def firstSomeQ (a b : Option ℚ) : Option ℚ :=
  match a with
  | some q => some q
  | none => b

/-! ## JavaScript `Number(...)` coercion

Needed by the `part_000` variant of `extractRoundPoints`, which coerces each
candidate field with `Number` and tests `Number.isFinite`.  The result is
`some q` when the coercion yields the finite number `q` and `none` when it
yields `NaN` or `±Infinity` (the two are never distinguished by the code).
-/

/-- Numeric value of one character in bases up to 16. -/
def hexDigitVal (c : Char) : Option Nat :=
  if c.isDigit then some (c.toNat - 48)
  else if 'a' ≤ c ∧ c ≤ 'f' then some (c.toNat - 97 + 10)
  else if 'A' ≤ c ∧ c ≤ 'F' then some (c.toNat - 65 + 10)
  else none

/-- Fold a non-empty digit string in the given base; `none` if any character
is out of range for the base. -/
def digitsVal (base : Nat) : List Char → Option Nat
  | [] => none
  | cs => cs.foldl (fun acc c =>
      match acc, hexDigitVal c with
      | some a, some d => if d < base then some (a * base + d) else none
      | _, _ => none) (some 0)

/-- Decimal mantissa `intPart [. fracPart]` followed by an optional exponent,
as accepted by JavaScript numeric string conversion. -/
def parseDecMantissa (cs : List Char) : Option (ℚ × List Char) :=
  let intPart := cs.takeWhile Char.isDigit
  let rest := cs.dropWhile Char.isDigit
  match rest with
  | '.' :: rest2 =>
      let fracPart := rest2.takeWhile Char.isDigit
      let rest3 := rest2.dropWhile Char.isDigit
      if intPart.isEmpty ∧ fracPart.isEmpty then none
      else
        let iv := (digitsVal 10 intPart).getD 0
        let fv := (digitsVal 10 fracPart).getD 0
        some ((iv : ℚ) + (fv : ℚ) / (10 : ℚ) ^ fracPart.length, rest3)
  | _ =>
      if intPart.isEmpty then none
      else some (((digitsVal 10 intPart).getD 0 : ℚ), rest)

/-- Optional `e`/`E` exponent suffix; fails unless the remainder is empty. -/
def parseExpSuffix (cs : List Char) : Option ℤ :=
  match cs with
  | [] => some 0
  | 'e' :: rest => parseSignedExp rest
  | 'E' :: rest => parseSignedExp rest
  | _ => none
where
  parseSignedExp : List Char → Option ℤ
    | '+' :: ds => (digitsVal 10 ds).map Int.ofNat
    | '-' :: ds => (digitsVal 10 ds).map (fun n => -(Int.ofNat n))
    | ds => (digitsVal 10 ds).map Int.ofNat

/-- Unsigned body of a JavaScript numeric string: hex/octal/binary literal or
decimal with optional exponent.  `Infinity` is non-finite, hence `none`. -/
def parseUnsignedJsNumber (cs : List Char) : Option ℚ :=
  match cs with
  | '0' :: 'x' :: ds => (digitsVal 16 ds).map (fun n => (n : ℚ))
  | '0' :: 'X' :: ds => (digitsVal 16 ds).map (fun n => (n : ℚ))
  | '0' :: 'o' :: ds => (digitsVal 8 ds).map (fun n => (n : ℚ))
  | '0' :: 'O' :: ds => (digitsVal 8 ds).map (fun n => (n : ℚ))
  | '0' :: 'b' :: ds => (digitsVal 2 ds).map (fun n => (n : ℚ))
  | '0' :: 'B' :: ds => (digitsVal 2 ds).map (fun n => (n : ℚ))
  | _ =>
      match parseDecMantissa cs with
      | some (m, rest) => (parseExpSuffix rest).map (fun e => m * (10 : ℚ) ^ e)
      | none => none

/-- Coercion `Number(s)` for a string `s`, restricted to finite results.  The empty or
all-whitespace string converts to `0`; a sign is only permitted on decimal
forms; `Infinity`, ill-formed strings, and radix literals with a sign are
`NaN`/non-finite, i.e. `none`. -/
def jsNumberOfString (s : String) : Option ℚ :=
  let cs := (s.trim).toList
  match cs with
  | [] => some 0
  | '+' :: rest => if rest = "Infinity".toList then none else signedDec rest
  | '-' :: rest => if rest = "Infinity".toList then none else (signedDec rest).map Neg.neg
  | _ => if cs = "Infinity".toList then none else parseUnsignedJsNumber cs
where
  /-- after a sign only decimal mantissa/exponent forms are legal -/
  signedDec (cs : List Char) : Option ℚ :=
    match parseDecMantissa cs with
    | some (m, rest) => (parseExpSuffix rest).map (fun e => m * (10 : ℚ) ^ e)
    | none => none

/-- Coercion `Number(v)` for a field value (`none` argument = `undefined`), restricted
to finite results.  `Number(undefined)` and `Number(object)` are `NaN`;
`Number(null)` is `0`; booleans convert to `0`/`1`; an empty array converts to
`0` (via its empty string form); non-empty arrays are conservatively treated
as non-finite (JavaScript coerces a singleton array through its string form —
the payload fields this code reads are never arrays). -/
def jsToNumber : Option Json → Option ℚ
  | none => none
  | some .null => some 0
  | some (.bool b) => some (if b then 1 else 0)
  | some (.num q) => some q
  | some (.str s) => jsNumberOfString s
  | some (.obj _) => none
  | some (.arr []) => some 0
  | some (.arr (_ :: _)) => none

/-! ## Round-points extraction

Three extraction routines coexist in the repository:
* `extractRoundPoints` — the `fetchSmart` variant of `src/server.js`
  (`function extractRoundPoints`, typeof-guarded fallback chain, `null` when
  nothing matches);
* `getTeamRoundPointsExtract` — the extraction tail of `getTeamRoundPoints`
  in the first `src/server.js` variant (typeof-guarded chain with a final
  `return 0` fallback);
* `extractRoundPointsP0` — the `src/unnamed/part_000` variant
  (`Number(...)`-coerced candidate list plus a nested `time.pontos.rodada`
  probe).
-/

/-- Probe `timeRoundJson.pontos && typeof timeRoundJson.pontos.rodada === "number"`:
the nested `pontos.rodada` probe of the `server.js` `extractRoundPoints`. -/
def pontosRodadaNested (j : Json) : Option ℚ :=
  match jsGetField j "pontos" with
  | some p => if jsTruthy p then asNum (jsGetField p "rodada") else none
  | none => none

/-- Probe `timeRoundJson.time && typeof timeRoundJson.time.pontos === "number"`:
the nested `time.pontos` probe of the `server.js` `extractRoundPoints`. -/
def timePontosNested (j : Json) : Option ℚ :=
  match jsGetField j "time" with
  | some t => if jsTruthy t then asNum (jsGetField t "pontos") else none
  | none => none

/-- Field-shape fallback chain of `extractRoundPoints` (`src/server.js`,
`fetchSmart` variant), reached once the argument is a truthy object. -/
def extractFieldChain (j : Json) : Option ℚ :=
  firstSomeQ (asNum (jsGetField j "pontos"))
    (firstSomeQ (asNum (jsGetField j "pontos_rodada"))
      (firstSomeQ (pontosRodadaNested j) (timePontosNested j)))

/-- Function `extractRoundPoints` from `src/server.js` (`fetchSmart` variant): a bare
number body is returned as-is; a non-object or falsy body yields `null`;
otherwise the direct `pontos`/`pontos_rodada` fields, the nested
`pontos.rodada` field and the nested `time.pontos` field are tried in order,
each guarded by `typeof ... === "number"`; `null` when nothing matches.
(Arrays pass the `typeof === "object"` test, so they flow into the field
chain exactly like objects and yield `null`.) -/
def extractRoundPoints (j : Json) : Option ℚ :=
  match j with
  | .num q => some q
  | .obj _ => extractFieldChain j
  | .arr _ => extractFieldChain j
  | _ => none

/-- Extraction tail of `getTeamRoundPoints` (first `src/server.js` variant):
`pontos`, `pontos_rodada_note`, `pontos_rodada`, then `time.pontos`, each
guarded by `typeof ... === "number"`, with a final `return 0` fallback.
Result `none` models the `TypeError` thrown when the parsed body is `null`
(the function reads `data.pontos` without a null guard). -/
def getTeamRoundPointsExtract (data : Json) : Option ℚ :=
  match data with
  | .null => none
  | _ => some
      ((firstSomeQ (asNum (jsGetField data "pontos"))
        (firstSomeQ (asNum (jsGetField data "pontos_rodada_note"))
          (firstSomeQ (asNum (jsGetField data "pontos_rodada"))
            (if jsTruthy data then timePontosNested data else none)))).getD 0)

/-- The candidate list of `extractRoundPoints` in `src/unnamed/part_000`:
`j?.pontos`, `j?.pontuacao`, `j?.pontos_rodada`, `j?.pontosRodada`,
`j?.time?.pontos`, `j?.time?.pontuacao`. -/
def extractCandidatesP0 (j : Json) : List (Option Json) :=
  [ jsOptChain (some j) "pontos"
  , jsOptChain (some j) "pontuacao"
  , jsOptChain (some j) "pontos_rodada"
  , jsOptChain (some j) "pontosRodada"
  , jsOptChain (jsOptChain (some j) "time") "pontos"
  , jsOptChain (jsOptChain (some j) "time") "pontuacao" ]

/-- Loop `for (const c of candidates) { const n = Number(c); if (Number.isFinite(n)) return n; }` -/
def firstFiniteNumber : List (Option Json) → Option ℚ
  | [] => none
  | c :: cs =>
      match jsToNumber c with
      | some q => some q
      | none => firstFiniteNumber cs

/-- Function `extractRoundPoints` from `src/unnamed/part_000`: coerces each candidate
field with `Number` and returns the first finite result; failing that, probes
`j?.time?.pontos?.rodada` (must be neither `undefined` nor `null` and coerce
finitely); otherwise `null`. -/
def extractRoundPointsP0 (j : Json) : Option ℚ :=
  match firstFiniteNumber (extractCandidatesP0 j) with
  | some q => some q
  | none =>
      match jsOptChain (jsOptChain (jsOptChain (some j) "time") "pontos") "rodada" with
      | some v => if v.isNull then none else jsToNumber (some v)
      | none => none

/-! ## Specification-side extraction chain (for claim C3)

Modelled from the spec: "a fallback chain of known upstream field shapes
(direct `points` field, nested `points.round` field, nested `team.points`
field, or a bare numeric body) — first shape that yields a finite number
wins; if none match, the value is `unknown`".  The direct-points extractor
covers the two direct field spellings (`pontos`, `pontos_rodada`) the
upstream uses. -/

/-- Spec shape 1: a direct points field (`pontos` or `pontos_rodada`). -/
def specDirectPoints (j : Json) : Option ℚ :=
  firstSomeQ (asNum (jsGetField j "pontos")) (asNum (jsGetField j "pontos_rodada"))

/-- Spec shape 2: the nested `pontos.rodada` field. -/
def specNestedRoundPoints (j : Json) : Option ℚ :=
  match jsGetField j "pontos" with
  | some p => asNum (jsGetField p "rodada")
  | none => none

/-- Spec shape 3: the nested `time.pontos` field. -/
def specTeamPoints (j : Json) : Option ℚ :=
  match jsGetField j "time" with
  | some t => asNum (jsGetField t "pontos")
  | none => none

/-- Spec shape 4: a bare numeric body. -/
def specBareNumber : Json → Option ℚ
  | .num q => some q
  | _ => none

/-- The spec's ordered extractor chain: first shape that yields a number
wins; `none` (the unknown sentinel) when no shape matches. -/
def extractRoundPointsSpec (j : Json) : Option ℚ :=
  firstSomeQ (specDirectPoints j)
    (firstSomeQ (specNestedRoundPoints j)
      (firstSomeQ (specTeamPoints j) (specBareNumber j)))

/-! ## Season calendar and market status -/

/-- One month block of the custom monthly report: a contiguous range of
rounds.  The source field `end` is a Lean keyword and is rendered `endR`. -/
structure MonthBlock where
  label : String
  start : Nat
  endR : Nat
deriving DecidableEq

/-- Table `MONTH_BLOCKS` of the `fetchSmart` variants (long labels). -/
def MONTH_BLOCKS : List MonthBlock :=
  [ ⟨"Rodadas 1 a 4 (jan/fev)", 1, 4⟩
  , ⟨"Rodadas 5 a 8 (mar)", 5, 8⟩
  , ⟨"Rodadas 9 a 13 (abr)", 9, 13⟩
  , ⟨"Rodadas 14 a 18 (mai)", 14, 18⟩
  , ⟨"Rodadas 19 a 21 (jul)", 19, 21⟩
  , ⟨"Rodadas 22 a 25 (ago)", 22, 25⟩
  , ⟨"Rodadas 26 a 28 (set)", 26, 28⟩
  , ⟨"Rodadas 29 a 33 (out)", 29, 33⟩
  , ⟨"Rodadas 34 a 38 (nov/dez)", 34, 38⟩ ]

/-- Table `MONTH_BLOCKS` of the first `src/server.js` variant (short labels, same
round ranges). -/
def MONTH_BLOCKS_V1 : List MonthBlock :=
  [ ⟨"jan/fev", 1, 4⟩
  , ⟨"mar", 5, 8⟩
  , ⟨"abr", 9, 13⟩
  , ⟨"mai", 14, 18⟩
  , ⟨"jul", 19, 21⟩
  , ⟨"ago", 22, 25⟩
  , ⟨"set", 26, 28⟩
  , ⟨"out", 29, 33⟩
  , ⟨"nov/dez", 34, 38⟩ ]

/-- Lookup `getMonthBlock(rodadaAtual)`: first block containing the round, defaulting
to `MONTH_BLOCKS[0]`. -/
def getMonthBlock (rodadaAtual : Nat) : MonthBlock :=
  (MONTH_BLOCKS.find? fun b => decide (b.start ≤ rodadaAtual) && decide (rodadaAtual ≤ b.endR)).getD
    ⟨"Rodadas 1 a 4 (jan/fev)", 1, 4⟩

/-- Lookup `getMonthBlockForRound(rodada)` of the first `src/server.js` variant. -/
def getMonthBlockForRound (rodada : Nat) : MonthBlock :=
  (MONTH_BLOCKS_V1.find? fun b => decide (b.start ≤ rodada) && decide (rodada ≤ b.endR)).getD
    ⟨"jan/fev", 1, 4⟩

/-- Defaulting `x || d` for an optional numeric field: the default is used when the
field is absent or `0` (JavaScript truthiness). -/
def jsOrNat (x : Option Nat) (d : Nat) : Nat :=
  match x with
  | none => d
  | some n => if n = 0 then d else n

/-- The `/mercado/status` fields consulted by the aggregation: current round
number, market state indicator (`status_mercado`, read with `?? 1`, so only
absence — not `0` — is defaulted) and the ball-rolling flag (already coerced
with `Boolean`). -/
structure MercadoStatus where
  rodada_atual : Option Nat
  status_mercado : Option Int
  bola_rolando : Bool

/-- Function `lastClosedRound(status)` from the `fetchSmart` variant of
`src/server.js`, transliterated branch by branch: `0` when the current round
is at most `1`, and otherwise `rodadaAtual - 1` down each of the
market-open / ball-rolling / default arms. -/
def lastClosedRound (status : MercadoStatus) : Nat :=
  if jsOrNat status.rodada_atual 1 ≤ 1 then 0
  else if status.status_mercado.getD 1 = 1 then jsOrNat status.rodada_atual 1 - 1
  else if status.bola_rolando then jsOrNat status.rodada_atual 1 - 1
  else jsOrNat status.rodada_atual 1 - 1

/-- Rounds visited by a `for (let r = s; r <= e; r++)` loop. -/
def rangeIncl (s e : Nat) : List Nat :=
  if e < s then [] else List.range' s (e - s + 1)

/-- The rounds actually summed by `buildMensalPersonalizadoMsg`
(`fetchSmart` variant): `monthBlock.start .. min(monthBlock.end, lastClosed)`,
empty when that interval is empty. -/
def mensalRounds (status : MercadoStatus) : List Nat :=
  let block := getMonthBlock (jsOrNat status.rodada_atual 1)
  rangeIncl block.start (min block.endR (lastClosedRound status))

/-- Expression `endRound = Math.min(block.end, rodadaAtual || block.start)` of
`handlerMensalPersonalizado` (first `src/server.js` variant) — note the cap
is the *current* round, not the last closed one. -/
def handlerMensalEndRound (rodada_atual : Option Nat) : Nat :=
  let block := getMonthBlockForRound (jsOrNat rodada_atual 1)
  min block.endR (jsOrNat rodada_atual block.start)

/-- The rounds summed by `handlerMensalPersonalizado`
(`block.start .. endRound`). -/
def handlerMensalRounds (rodada_atual : Option Nat) : List Nat :=
  let block := getMonthBlockForRound (jsOrNat rodada_atual 1)
  rangeIncl block.start (handlerMensalEndRound rodada_atual)

/-! ## Monthly aggregation (`fetchSmart` variant of `src/server.js`)

The per-round fetch outcome for one team is abstracted as a function
`fetch : Nat → Option Json`: `some data` when `fetchTimeRound` resolved with
the parsed body `data`, `none` when it threw (HTTP or parse failure) — the
`try { ... } catch {}` around each round turns a throw into a zero
contribution. -/

/-- The per-team summation loop of `buildMensalPersonalizadoMsg`:
`soma += pts` exactly when the fetch succeeded and
`typeof pts === "number" && Number.isFinite(pts)`. -/
def sumTeamRounds (fetch : Nat → Option Json) (rounds : List Nat) : ℚ :=
  rounds.foldl (fun soma r =>
    match fetch r with
    | none => soma
    | some data =>
        match extractRoundPoints data with
        | some pts => soma + pts
        | none => soma) 0

/-- A league team as consumed by the aggregation. -/
structure Team where
  time_id : Nat
  nome : String
  nome_cartola : String

/-- One row of the monthly ranking. -/
structure MensalRow where
  nome : String
  nome_cartola : String
  soma : ℚ

/-- Sort `results.sort((a, b) => b.soma - a.soma)` — descending by summed
points. -/
def sortRowsDesc (rows : List MensalRow) : List MensalRow :=
  rows.mergeSort fun a b => decide (b.soma ≤ a.soma)

/-- The ranking rows built by the aggregation loop: one row per league team,
in league order, then sorted descending by sum. -/
def mensalResultsRows (teams : List Team) (rounds : List Nat)
    (outcome : Nat → Nat → Option Json) : List MensalRow :=
  sortRowsDesc (teams.map fun t => ⟨t.nome, t.nome_cartola, sumTeamRounds (outcome t.time_id) rounds⟩)

/-- Observable result of `buildMensalPersonalizadoMsg`: either the
distinguished "no closed round inside this block yet" message or a ranking
of all teams. -/
inductive MensalResult where
  | noClosedRounds (rodadaAtual lastClosed : Nat)
  | ranking (rows : List MensalRow)

/-- Function `buildMensalPersonalizadoMsg(ligaNome, status, ligaTimes)` (`fetchSmart`
variant of `src/server.js`), modelled as its observable result paired with
the number of `fetchTimeRound` invocations it performs.  `outcome t r` is the
fetch outcome for team `t` and round `r` (`none` = the fetch threw). -/
def buildMensalPersonalizadoMsg (status : MercadoStatus) (teams : List Team)
    (outcome : Nat → Nat → Option Json) : MensalResult × Nat :=
  let rodadaAtual := jsOrNat status.rodada_atual 1
  let monthBlock := getMonthBlock rodadaAtual
  let lastClosed := lastClosedRound status
  let start := monthBlock.start
  let stop := min monthBlock.endR lastClosed
  if stop < start then
    (.noClosedRounds rodadaAtual lastClosed, 0)
  else
    let rounds := rangeIncl start stop
    (.ranking (mensalResultsRows teams rounds outcome), teams.length * rounds.length)

/-! ## `sumPoints` (`src/unnamed/part_000`)

`getRoundPointsForTeam` results are abstracted as `pts : Nat → Option ℚ`
(`none` = the cached/extracted value was `null`).  A per-round *fetch
failure* is not represented here because `sumPoints` has no `try`/`catch`:
a throw from `getRoundPointsForTeam` propagates out of `sumPoints`. -/

/-- The accumulation loop of `sumPoints`: skips `null` rounds, tracks whether
any round contributed, and returns `null` when none did. -/
def sumPointsGo (pts : Nat → Option ℚ) : List Nat → ℚ → Bool → Option ℚ
  | [], sum, hasAny => if hasAny then some sum else none
  | r :: rs, sum, hasAny =>
      match pts r with
      | none => sumPointsGo pts rs sum hasAny
      | some q => sumPointsGo pts rs (sum + q) true

/-- Function `sumPoints(timeId, startRodada, endRodada)` from `src/unnamed/part_000`
(end inclusive): the sum of the non-`null` per-round values, or `null` when
every round in the window was `null`. -/
def sumPoints (pts : Nat → Option ℚ) (startRodada endRodada : Nat) : Option ℚ :=
  sumPointsGo pts (rangeIncl startRodada endRodada) 0 false

/-! ## Round-points cache (`src/unnamed/part_000`)

The single `Map` of `part_000` holds both the raw per-team-per-round bodies
(keys `timeRaw:{timeId}:{rodada}`, written by `getTimeRoundRaw`) and the
extracted points (keys `pts:{timeId}:{rodada}`, written by
`getRoundPointsForTeam`).  The two string key families are injective and
disjoint, so they are modelled by a two-constructor key type.  Stored values
are JavaScript values: raw bodies are stored as-is, and an extracted points
value of `null` is stored as the JSON `null` (`encodePts`).  Time is in
milliseconds (`Date.now()`), assumed monotone across calls. -/

/-- Cache key: `timeRaw:{timeId}:{rodada}` or `pts:{timeId}:{rodada}`. -/
inductive CacheKey where
  | raw (timeId rodada : Nat)
  | pts (timeId rodada : Nat)
deriving DecidableEq

/-- The in-memory `Map`: key, stored value, insertion timestamp (`at`). -/
abbrev CacheMap := List (CacheKey × Json × Nat)

/-- Constant `CACHE_TTL_MS = 10 * 60 * 1000`. -/
def CACHE_TTL_MS : Nat := 10 * 60 * 1000

/-- Association lookup in the cache map. -/
def cacheFind : CacheMap → CacheKey → Option (Json × Nat)
  | [], _ => none
  | (k2, v, ts) :: rest, k => if k2 = k then some (v, ts) else cacheFind rest k

/-- Eviction `cache.delete(key)`. -/
def cacheErase (c : CacheMap) (k : CacheKey) : CacheMap :=
  c.filter fun e => decide (e.1 ≠ k)

/-- Insertion `cacheSet(key, value)`: `cache.set(key, { value, at: Date.now() })`. -/
def cacheSet (c : CacheMap) (k : CacheKey) (v : Json) (now : Nat) : CacheMap :=
  (k, v, now) :: cacheErase c k

/-- Function `cacheGet(key)`: `null` on a miss; lazily evicts and returns `null` when
the entry is older than the TTL; the stored value otherwise.  The returned
JavaScript value is `Json.null` for a miss — indistinguishable from a stored
`null`. -/
def cacheGet (c : CacheMap) (k : CacheKey) (now : Nat) : Json × CacheMap :=
  match cacheFind c k with
  | none => (.null, c)
  | some (v, ts) => if now - ts > CACHE_TTL_MS then (.null, cacheErase c k) else (v, c)

/-- Extracted points as the JavaScript value stored in the cache
(`null` for the unknown sentinel). -/
def encodePts : Option ℚ → Json
  | none => .null
  | some q => .num q

/-- Reading a stored points value back (`getRoundPointsForTeam` only ever
stores `encodePts` images under `pts` keys). -/
def decodePts : Json → Option ℚ
  | .num q => some q
  | _ => none

/-- Function `getTimeRoundRaw(timeId, rodada)`: raw-body layer.  `upstream` is the
parsed body the network fetch would deliver at this instant (the fetch is
assumed to succeed — failure paths propagate out of the cache layer and are
settled at the aggregation call sites).  Returns the body, the updated cache
and the number of upstream calls performed (0 on a truthy cache hit, else 1).
Note the hit test is *truthiness* (`if (cached) return cached`), not a null
comparison. -/
def getTimeRoundRaw (upstream : Json) (timeId rodada now : Nat) (c : CacheMap) :
    Json × CacheMap × Nat :=
  match cacheGet c (.raw timeId rodada) now with
  | (cached, c1) =>
      if jsTruthy cached then (cached, c1, 0)
      else (upstream, cacheSet c1 (.raw timeId rodada) upstream now, 1)

/-- Function `getRoundPointsForTeam(timeId, rodada)`: returns the cached points value
when the `pts` entry is live and not `null` (`if (cached !== null) return
cached`), otherwise re-derives it from the (possibly cached) raw body with
`extractRoundPointsP0` and stores the result — number *or* `null` — back
under the `pts` key.  Result: points value, updated cache, upstream calls. -/
def getRoundPointsForTeam (upstream : Json) (timeId rodada now : Nat) (c : CacheMap) :
    Option ℚ × CacheMap × Nat :=
  match cacheGet c (.pts timeId rodada) now with
  | (cached, c1) =>
      if cached.isNull then
        match getTimeRoundRaw upstream timeId rodada now c1 with
        | (raw, c2, calls) =>
            let pts := extractRoundPointsP0 raw
            (pts, cacheSet c2 (.pts timeId rodada) (encodePts pts) now, calls)
      else (decodePts cached, c1, 0)

/-! ## Credential lifecycle

Access tokens are opaque strings whose only inspected property is the `exp`
claim of their (base64url-decoded) JWT payload; a token is therefore
represented by whether it is truthy together with the decoded claim
(`none` when the payload is undecodable or has no `exp`).  Epoch values are
integers (seconds or milliseconds as in each variant). -/

/-- Truthiness of an optional numeric field (absent and `0` are falsy). -/
def jsTruthyIntOpt : Option Int → Bool
  | none => false
  | some v => decide (v ≠ 0)

/-- Expiry derivation of `refreshAccessToken` (first `src/server.js`
variant), epoch seconds: the decoded `exp` claim when truthy, else
`now + expires_in` when truthy, else `now + 300` (5 minutes).
`payloadExp` is `decodeJwtPayload(accessToken)?.exp`. -/
def deriveAccessTokenExpiry (payloadExp expiresIn : Option Int) (now : Int) : Int :=
  if jsTruthyIntOpt payloadExp then payloadExp.getD 0
  else if jsTruthyIntOpt expiresIn then now + expiresIn.getD 0
  else now + 300

/-- Expiry derivation of `refreshAccessToken` in `src/unnamed/part_000`
(axios variant), epoch milliseconds: `exp * 1000` when the claim is truthy,
else `now + expires_in * 1000`, else `now + 10 * 60 * 1000` (10 minutes). -/
def refreshExpiryMsP0 (payloadExp expiresIn : Option Int) (nowMs : Int) : Int :=
  if jsTruthyIntOpt payloadExp then payloadExp.getD 0 * 1000
  else if jsTruthyIntOpt expiresIn then nowMs + expiresIn.getD 0 * 1000
  else nowMs + 10 * 60 * 1000

/-- Function `isTokenValid(token)` (`fetchSmart` variant of `src/server.js`), epoch
seconds: false for a falsy token or a falsy decoded `exp`; otherwise
`exp > now + 60`. -/
def isTokenValid (tokenTruthy : Bool) (exp : Option Int) (now : Int) : Bool :=
  if !tokenTruthy then false
  else
    match exp with
    | none => false
    | some e => if e = 0 then false else decide (e > now + 60)

/-- Refresh condition of `ensureAccessToken` (first `src/server.js` variant):
`!accessToken || !accessTokenExpEpoch || accessTokenExpEpoch < now + 60`. -/
def ensureRefreshCond (tokenTruthy : Bool) (expEpoch : Option Int) (now : Int) : Bool :=
  !tokenTruthy || !(jsTruthyIntOpt expEpoch) || decide (expEpoch.getD 0 < now + 60)

/-- Function `accessTokenValid()` from `src/unnamed/part_000` (first variant), epoch
milliseconds, with its 30-second margin:
`accessTokenCache && accessTokenExpMs && Date.now() < accessTokenExpMs - 30 * 1000`. -/
def accessTokenValidP0 (cacheTruthy : Bool) (expMs : Option Int) (nowMs : Int) : Bool :=
  cacheTruthy && jsTruthyIntOpt expMs && decide (nowMs < expMs.getD 0 - 30 * 1000)

/-- Test `s.startsWith("eyJ")` on the character representation of a string. -/
def startsWithEyJ (s : String) : Bool :=
  s.toList.take 3 == ['e', 'y', 'J']

/-- The refresh-credential rotation step of `refreshAccessToken`
(first `src/server.js` variant): the stored value is replaced only when the
response carries a truthy `refresh_token` that starts with `"eyJ"`.
`field` is the response's `refresh_token` (absent = `none`; a non-string
value would be stringified before the prefix test and in practice never
passes it). -/
def updateRefreshToken (stored : String) (field : Option String) : String :=
  match field with
  | some s => if s != "" && startsWithEyJ s then s else stored
  | none => stored

/-! ## Resilient fetch (`fetchSmart`)

All three `fetchSmart` occurrences share one structure: try the request
without auth; on a thrown error whose `status` is `401` or `403`, and with a
credential configured (`BEARER` in two variants,
`accessToken || REFRESH_TOKEN` in the third), retry once with auth and let
that second outcome — success or failure — stand; otherwise rethrow.
`unauth`/`auth` are the outcomes the two `fetchJson` calls would produce. -/

/-- A thrown fetch error: `err.status` when the code set one (HTTP failures;
one variant also tags parse failures with `status = 200`), `none` for plain
`Error`s. -/
structure JsError where
  status : Option Nat
deriving DecidableEq

/-- Function `fetchSmart(url)`: result together with the number of `fetchJson`
attempts performed (1 or 2). -/
def fetchSmart (credConfigured : Bool) (unauth auth : Except JsError Json) :
    Except JsError Json × Nat :=
  match unauth with
  | .ok j => (.ok j, 1)
  | .error e =>
      if (e.status == some 401 || e.status == some 403) && credConfigured then (auth, 2)
      else (.error e, 1)

/-! ## Shared lemmas -/

/-- Closed form of `lastClosedRound`: all three non-initial arms coincide. -/
theorem lastClosedRound_eq (s : MercadoStatus) :
    lastClosedRound s =
      if jsOrNat s.rodada_atual 1 ≤ 1 then 0 else jsOrNat s.rodada_atual 1 - 1 := by
  unfold lastClosedRound
  split
  · rfl
  · split
    · rfl
    · split <;> rfl

/-- Membership in an inclusive loop range is bounded by the upper end. -/
theorem le_of_mem_rangeIncl {r s e : Nat} (h : r ∈ rangeIncl s e) : r ≤ e := by
  unfold rangeIncl at h
  split at h
  · simp at h
  · rw [List.mem_range'_1] at h
    omega

/-- A falsy JSON value has no readable fields (only objects and arrays carry
fields, and those are always truthy). -/
theorem jsGetField_of_falsy {p : Json} (h : jsTruthy p = false) (name : String) :
    jsGetField p name = none := by
  cases p <;> simp_all [jsTruthy, jsGetField]

/-- The truthiness guard in the nested `pontos.rodada` probe is redundant:
a falsy `pontos` value has no `rodada` field. -/
theorem pontosRodadaNested_eq_spec (j : Json) :
    pontosRodadaNested j = specNestedRoundPoints j := by
  unfold pontosRodadaNested specNestedRoundPoints
  cases hp : jsGetField j "pontos" with
  | none => rfl
  | some p =>
      by_cases ht : jsTruthy p
      · simp [ht]
      · simp [ht, jsGetField_of_falsy (p := p) (by simpa using ht), asNum]

/-- Same for the `time.pontos` probe. -/
theorem timePontosNested_eq_spec (j : Json) :
    timePontosNested j = specTeamPoints j := by
  unfold timePontosNested specTeamPoints
  cases hp : jsGetField j "time" with
  | none => rfl
  | some t =>
      by_cases ht : jsTruthy t
      · simp [ht]
      · simp [ht, jsGetField_of_falsy (p := t) (by simpa using ht), asNum]

/-! ## Claim theorems -/

/-- C5 (counterexample): with an undecodable access token and no
`expires_in`, the `part_000` refresher stores an expiry 10 minutes — not the
claimed 5 minutes — after now. -/
theorem c5_fallback_is_ten_minutes_cex :
    refreshExpiryMsP0 none none 0 = 600000 ∧ (600000 : Int) ≠ 5 * 60 * 1000 := by
  constructor
  · rfl
  · decide

/-- C5 (amended): for the main `src/server.js` refresher the stored expiry is
derived with the claimed priority — the decoded `exp` claim when truthy, else
`now + expires_in` when truthy, else a fixed five-minute validity
(`now + 300` seconds).  (The `part_000` refresher uses the same priority but
a 10-minute final fallback.) -/
theorem c5_expiry_priority (payloadExp expiresIn : Option Int) (now : Int) :
    (∀ e, payloadExp = some e → e ≠ 0 →
      deriveAccessTokenExpiry payloadExp expiresIn now = e) ∧
    (jsTruthyIntOpt payloadExp = false → ∀ x, expiresIn = some x → x ≠ 0 →
      deriveAccessTokenExpiry payloadExp expiresIn now = now + x) ∧
    (jsTruthyIntOpt payloadExp = false → jsTruthyIntOpt expiresIn = false →
      deriveAccessTokenExpiry payloadExp expiresIn now = now + 300) := by
  refine ⟨?_, ?_, ?_⟩
  · intro e he hne
    subst he
    simp [deriveAccessTokenExpiry, jsTruthyIntOpt, hne]
  · intro hp x hx hxne
    subst hx
    simp only [deriveAccessTokenExpiry, hp]
    simp [jsTruthyIntOpt, hxne]
  · intro hp hi
    simp [deriveAccessTokenExpiry, hp, hi]

/-- C5 witness: a decodable `exp` claim wins over everything else. -/
theorem c5_expiry_priority_witness :
    deriveAccessTokenExpiry (some 1700000000) none 0 = 1700000000 :=
  (c5_expiry_priority (some 1700000000) none 0).1 1700000000 rfl (by decide)

/-- C6 (counterexample): `accessTokenValid` of `src/unnamed/part_000` uses a
30-second — not 60-second — margin: a token expiring 40 seconds from now
(40000 ms) is reported valid, where the claim requires `false` for any expiry
within 60 seconds. -/
theorem c6_thirty_second_margin_cex :
    accessTokenValidP0 true (some 40000) 0 = true ∧ (40000 : Int) < 0 + 60 * 1000 := by
  constructor
  · rfl
  · decide

/-- C6 (amended): `isTokenValid` (`fetchSmart` variant of `src/server.js`)
is true exactly for a truthy token whose nonzero decoded expiry lies strictly
more than 60 seconds in the future, and the `ensureAccessToken` refresh
condition (first variant) fires exactly when the token is absent, the expiry
is absent/zero, or the expiry is *less than* `now + 60` — so an expiry of
exactly 60 seconds from now counts as valid there; `part_000`'s
`accessTokenValid` uses a 30-second margin instead. -/
theorem c6_validity_margin (tt : Bool) (exp : Option Int) (now : Int) :
    (isTokenValid tt exp now = true ↔
      tt = true ∧ ∃ e, exp = some e ∧ e ≠ 0 ∧ now + 60 < e) ∧
    (ensureRefreshCond tt exp now = true ↔
      ¬(tt = true ∧ ∃ e, exp = some e ∧ e ≠ 0 ∧ now + 60 ≤ e)) := by
  constructor
  · cases tt with
    | false => simp [isTokenValid]
    | true =>
        cases exp with
        | none => simp [isTokenValid]
        | some e => by_cases he : e = 0 <;> simp [isTokenValid, he]
  · cases tt with
    | false => simp [ensureRefreshCond]
    | true =>
        cases exp with
        | none => simp [ensureRefreshCond, jsTruthyIntOpt]
        | some e =>
            by_cases he : e = 0 <;>
              simp [ensureRefreshCond, jsTruthyIntOpt, he]

/-- C7: the escalation rule of every `fetchSmart` variant.  An
unauthenticated success is returned directly with one attempt; an
unauthenticated failure with status 401 or 403 while a credential is
configured leads to exactly one authenticated retry whose outcome — success
or failure — is final; any other status, or a missing credential, propagates
the original failure with no retry. -/
theorem c7_fetchSmart_escalation (cred : Bool) (auth : Except JsError Json) :
    (∀ j, fetchSmart cred (.ok j) auth = (.ok j, 1)) ∧
    (∀ e, e.status = some 401 ∨ e.status = some 403 →
      fetchSmart true (.error e) auth = (auth, 2)) ∧
    (∀ e, e.status ≠ some 401 → e.status ≠ some 403 →
      fetchSmart cred (.error e) auth = (.error e, 1)) ∧
    (∀ e, fetchSmart false (.error e) auth = (.error e, 1)) := by
  refine ⟨fun j => rfl, ?_, ?_, ?_⟩
  · rintro e (h | h) <;> simp [fetchSmart, h]
  · intro e h1 h3
    simp [fetchSmart, h1, h3]
  · intro e
    simp [fetchSmart]

/-- C7 witness: a 403 without auth, credential configured, authenticated
retry itself failing with 500 — the retry's failure propagates after exactly
two attempts. -/
theorem c7_fetchSmart_escalation_witness :
    fetchSmart true (.error ⟨some 403⟩) (.error ⟨some 500⟩) = (.error ⟨some 500⟩, 2) :=
  (c7_fetchSmart_escalation true (.error ⟨some 500⟩)).2.1 ⟨some 403⟩ (Or.inr rfl)

/-- C9 (counterexample): a refresh response that does return a
`refresh_token` — one not starting with `"eyJ"` — does *not* replace the
stored credential, contradicting the claim that any returned value
replaces it. -/
theorem c9_rotation_guard_cex :
    updateRefreshToken "storedRT" (some "newRT") = "storedRT" ∧
      "storedRT" ≠ "newRT" := by
  constructor
  · rfl
  · decide

/-- C9 (amended): the stored refresh credential is replaced exactly when the
response carries a `refresh_token` starting with `"eyJ"`; a missing field or
one without that prefix leaves the stored value unchanged. -/
theorem c9_rotation (stored s : String) :
    (startsWithEyJ s = true → updateRefreshToken stored (some s) = s) ∧
    (startsWithEyJ s = false → updateRefreshToken stored (some s) = stored) ∧
    updateRefreshToken stored none = stored := by
  refine ⟨?_, ?_, rfl⟩
  · intro h
    have hne : s ≠ "" := by
      intro hs
      subst hs
      simp [startsWithEyJ] at h
    simp [updateRefreshToken, h, hne]
  · intro h
    simp [updateRefreshToken, h]

/-- C9 witness: a returned `refresh_token` with the `"eyJ"` prefix does
replace the stored value. -/
theorem c9_rotation_witness :
    updateRefreshToken "storedRT" (some "eyJnew") = "eyJnew" :=
  (c9_rotation "storedRT" "eyJnew").1 (by rfl)

/-- C1 (counterexample): with current round 1 the `handlerMensalPersonalizado`
variant computes effective end round 1 — not 0 — and its summation loop does
visit round 1, which exceeds the last closed round 0. -/
theorem c1_handler_includes_current_round_cex :
    handlerMensalEndRound (some 1) = 1 ∧
    (1 : Nat) ∈ handlerMensalRounds (some 1) ∧
    lastClosedRound ⟨some 1, some 0, false⟩ = 0 := by
  refine ⟨rfl, ?_, rfl⟩
  decide

/-- C1 (amended): `lastClosedRound` is 0 when the current round is at most 1
and `current - 1` otherwise, independently of the market-state and
ball-rolling flags, and the `lastClosedRound`-based aggregation
(`buildMensalPersonalizadoMsg`) never visits a round beyond it; the
`handlerMensalPersonalizado` and `buildMensalPersonalizado` variants instead
cap their summation at the *current* round. -/
theorem c1_last_closed_round_bound (s : MercadoStatus) :
    (lastClosedRound s =
      if jsOrNat s.rodada_atual 1 ≤ 1 then 0 else jsOrNat s.rodada_atual 1 - 1) ∧
    (∀ m b, lastClosedRound ⟨s.rodada_atual, m, b⟩ = lastClosedRound s) ∧
    (∀ r, r ∈ mensalRounds s → r ≤ lastClosedRound s) := by
  refine ⟨lastClosedRound_eq s, ?_, ?_⟩
  · intro m b
    rw [lastClosedRound_eq, lastClosedRound_eq]
  · intro r hr
    unfold mensalRounds at hr
    exact le_trans (le_of_mem_rangeIncl hr) (min_le_right _ _)

/-- C1 witness: at current round 3 (flags arbitrary) the last closed round is
2 and round 2 — a member of the summed window — is within the bound. -/
theorem c1_last_closed_round_bound_witness :
    (2 : Nat) ≤ lastClosedRound ⟨some 3, some 2, true⟩ :=
  (c1_last_closed_round_bound ⟨some 3, some 2, true⟩).2.2 2 (by decide)

/-- C2 (counterexample): `sumPoints` of `src/unnamed/part_000` returns `null`
— not the claimed number 0 — for a window in which every round's value is
unknown. -/
theorem c2_sumPoints_null_cex :
    sumPoints (fun _ => none) 5 6 = none ∧
      sumPoints (fun _ => none) 5 6 ≠ some 0 := by
  constructor
  · rfl
  · decide

/-- The summation loop of `buildMensalPersonalizadoMsg`, fold form. -/
theorem sumTeamRounds_foldl_eq (fetch : Nat → Option Json) (l : List Nat) :
    ∀ a : ℚ,
      (l.foldl (fun soma r =>
        match fetch r with
        | none => soma
        | some data =>
            match extractRoundPoints data with
            | some pts => soma + pts
            | none => soma) a)
      = a + ((l.filterMap fun r => (fetch r).bind extractRoundPoints).sum) := by
  induction l with
  | nil => intro a; simp
  | cons r rs ih =>
      intro a
      simp only [List.foldl_cons, List.filterMap_cons]
      cases hf : fetch r with
      | none => simp [ih]
      | some d =>
          cases he : extractRoundPoints d with
          | none => simp [Option.bind, he, ih]
          | some q =>
              simp only [Option.bind, he, List.sum_cons, ih]
              ring

/-- C2 (amended): in `buildMensalPersonalizadoMsg` a team's monthly sum is
exactly the sum of the per-round values whose fetch succeeded and whose
extraction yielded a number — every failed fetch and every unknown round
contributes exactly 0, the result is always a number, and no team is dropped
from the ranking; `part_000`'s `sumPoints`, by contrast, returns `null` when
no round in the window yields a value (and has no per-round failure
isolation). -/
theorem c2_sum_failed_rounds_zero (fetch : Nat → Option Json) (rounds : List Nat)
    (teams : List Team) (outcome : Nat → Nat → Option Json) :
    sumTeamRounds fetch rounds
      = ((rounds.filterMap fun r => (fetch r).bind extractRoundPoints).sum) ∧
    (mensalResultsRows teams rounds outcome).length = teams.length := by
  constructor
  · unfold sumTeamRounds
    rw [sumTeamRounds_foldl_eq]
    simp
  · unfold mensalResultsRows sortRowsDesc
    rw [List.length_mergeSort, List.length_map]

/-- C3 (counterexample): two of the cited extraction routines violate the
claimed chain.  `getTeamRoundPoints` (first `server.js` variant) returns the
default number 0 — not the unknown sentinel — on a body in which no known
shape yields a number (the empty object, on which the `extractRoundPoints`
chain does return the sentinel).  `extractRoundPointsP0`
(`src/unnamed/part_000`) deviates in both directions: it has no
bare-numeric-body shape (the body `5` yields the sentinel, not 5) and no
`pontos.rodada` shape (`{pontos: {rodada: 7}}` yields the sentinel, its
nested probe being `time.pontos.rodada` instead), yet it returns numbers for
field shapes outside the claimed list (`{pontuacao: 3}` yields 3) and its
`Number` coercion turns a `null` field into the default number 0
(`{pontuacao: null}` yields 0 although no shape yields a finite number
there). -/
theorem c3_extraction_deviations_cex :
    (getTeamRoundPointsExtract (Json.obj []) = some 0 ∧
      extractRoundPoints (Json.obj []) = none) ∧
    extractRoundPointsP0 (Json.num 5) = none ∧
    extractRoundPointsP0 (Json.obj [("pontos", Json.obj [("rodada", Json.num 7)])]) = none ∧
    extractRoundPointsP0 (Json.obj [("pontuacao", Json.num 3)]) = some 3 ∧
    extractRoundPointsP0 (Json.obj [("pontuacao", Json.null)]) = some 0 := by
  exact ⟨⟨rfl, rfl⟩, rfl, rfl, rfl, rfl⟩

/-- C3 (amended): only the `fetchSmart` variant's `extractRoundPoints`
implements the claimed behaviour: it agrees with the spec's ordered extractor
chain — direct points field (`pontos` / `pontos_rodada`), nested
`pontos.rodada`, nested `time.pontos`, bare numeric body — returning the
first matching number and the unknown sentinel when no shape matches.  The
other two cited extractors deviate: the `getTeamRoundPoints` variant falls
back to the default number 0 when no shape matches, and `part_000`'s
`extractRoundPoints` runs a different chain (`Number`-coerced candidates
`pontos`, `pontuacao`, `pontos_rodada`, `pontosRodada`, `time.pontos`,
`time.pontuacao`, then a `time.pontos.rodada` probe) that handles neither a
bare numeric body nor the `pontos.rodada` shape, accepts shapes outside the
claimed list, and coerces non-numeric field values — a `null` field becomes
0. -/
theorem c3_extract_chain (j : Json) :
    extractRoundPoints j = extractRoundPointsSpec j := by
  have chain : ∀ k : Json, specBareNumber k = none →
      extractFieldChain k = extractRoundPointsSpec k := by
    intro k hbare
    unfold extractFieldChain extractRoundPointsSpec specDirectPoints
    rw [pontosRodadaNested_eq_spec, timePontosNested_eq_spec, hbare]
    generalize asNum (jsGetField k "pontos") = a
    generalize asNum (jsGetField k "pontos_rodada") = b
    generalize specNestedRoundPoints k = n
    generalize specTeamPoints k = t
    cases a <;> cases b <;> cases n <;> cases t <;> rfl
  cases j with
  | null => rfl
  | bool b => rfl
  | str s => rfl
  | num q => rfl
  | arr elems => exact chain (Json.arr elems) rfl
  | obj fields => exact chain (Json.obj fields) rfl

/-- C8: whenever the month block's start round exceeds the last closed round,
`buildMensalPersonalizadoMsg` returns the distinguished
"no closed round inside this block yet" result with zero `fetchTimeRound`
invocations — never a ranking (in particular never an all-zero ranking). -/
theorem c8_no_closed_rounds_empty (status : MercadoStatus) (teams : List Team)
    (outcome : Nat → Nat → Option Json)
    (h : lastClosedRound status < (getMonthBlock (jsOrNat status.rodada_atual 1)).start) :
    buildMensalPersonalizadoMsg status teams outcome
      = (.noClosedRounds (jsOrNat status.rodada_atual 1) (lastClosedRound status), 0) ∧
    ∀ rows, (buildMensalPersonalizadoMsg status teams outcome).1 ≠ MensalResult.ranking rows := by
  have hlt : min (getMonthBlock (jsOrNat status.rodada_atual 1)).endR (lastClosedRound status)
      < (getMonthBlock (jsOrNat status.rodada_atual 1)).start :=
    lt_of_le_of_lt (min_le_right _ _) h
  have hmain : buildMensalPersonalizadoMsg status teams outcome
      = (.noClosedRounds (jsOrNat status.rodada_atual 1) (lastClosedRound status), 0) := by
    unfold buildMensalPersonalizadoMsg
    simp only [hlt, if_pos]
  refine ⟨hmain, ?_⟩
  intro rows
  rw [hmain]
  simp

/-- C8 witness: at current round 1 the block is rounds 1–4, the last closed
round is 0, and the aggregation returns the empty "not started" result with
no fetches. -/
theorem c8_no_closed_rounds_empty_witness :
    buildMensalPersonalizadoMsg ⟨some 1, none, false⟩ [] (fun _ _ => none)
      = (.noClosedRounds 1 0, 0) :=
  (c8_no_closed_rounds_empty ⟨some 1, none, false⟩ [] (fun _ _ => none) (by decide)).1

/-- Case analysis of the field-shape chain: when `extractRoundPoints` runs
the field chain, its result is either the unknown sentinel or the value of
the first matching probe. -/
theorem extract_chain_cases (j : Json) (h : extractRoundPoints j = extractFieldChain j) :
    extractRoundPoints j = none ∨
    ∃ q, extractRoundPoints j = some q ∧
      (specBareNumber j = some q ∨
       asNum (jsGetField j "pontos") = some q ∨
       asNum (jsGetField j "pontos_rodada") = some q ∨
       pontosRodadaNested j = some q ∨
       timePontosNested j = some q) := by
  rw [h]
  unfold extractFieldChain
  cases hA : asNum (jsGetField j "pontos") with
  | some q => exact Or.inr ⟨q, rfl, Or.inr (Or.inl rfl)⟩
  | none =>
      cases hB : asNum (jsGetField j "pontos_rodada") with
      | some q => exact Or.inr ⟨q, rfl, Or.inr (Or.inr (Or.inl rfl))⟩
      | none =>
          cases hN : pontosRodadaNested j with
          | some q => exact Or.inr ⟨q, rfl, Or.inr (Or.inr (Or.inr (Or.inl rfl)))⟩
          | none =>
              cases hT : timePontosNested j with
              | some q => exact Or.inr ⟨q, rfl, Or.inr (Or.inr (Or.inr (Or.inr rfl)))⟩
              | none => exact Or.inl rfl

/-- C10: the `extractRoundPoints` chain is total — modelled as a total Lean
function, mirroring that every JavaScript branch is guarded by `typeof` tests
and cannot throw — and on every JSON input it returns either a (finite)
number traceable to one of the probed shapes, or the unknown sentinel;
never any other value. -/
theorem c10_extract_total (j : Json) :
    extractRoundPoints j = none ∨
    ∃ q, extractRoundPoints j = some q ∧
      (specBareNumber j = some q ∨
       asNum (jsGetField j "pontos") = some q ∨
       asNum (jsGetField j "pontos_rodada") = some q ∨
       pontosRodadaNested j = some q ∨
       timePontosNested j = some q) := by
  cases j with
  | null => exact Or.inl rfl
  | bool b => exact Or.inl rfl
  | str s => exact Or.inl rfl
  | num q => exact Or.inr ⟨q, rfl, Or.inl rfl⟩
  | arr elems => exact extract_chain_cases (Json.arr elems) rfl
  | obj fields => exact extract_chain_cases (Json.obj fields) rfl

/-- C4 (counterexample): with the upstream body a bare `0` — a falsy value —
the first lookup yields the unknown sentinel and stores both cache entries,
yet a second lookup of the same key one minute later (well inside the
10-minute TTL) performs a second upstream call: the stored `pts` entry is
`null` and so indistinguishable from a miss, and the stored raw body `0`
fails the raw layer's truthiness hit test. -/
theorem c4_falsy_body_refetch_cex :
    (getRoundPointsForTeam (Json.num 0) 7 3 0 []).1 = none ∧
    (getRoundPointsForTeam (Json.num 0) 7 3 0 []).2.2 = 1 ∧
    (getRoundPointsForTeam (Json.num 0) 7 3 60000
        ((getRoundPointsForTeam (Json.num 0) 7 3 0 []).2.1)).2.2 = 1 ∧
    60000 - 0 ≤ CACHE_TTL_MS := by
  refine ⟨rfl, rfl, rfl, by decide⟩

/-- C4 (amended): starting from an empty cache, the first lookup of a key
makes exactly one upstream call and stores the extracted result — number
*or* unknown — under the `pts` key.  A second lookup within the TTL makes no
upstream call and returns the same value, *provided* the fetched body is
truthy: a numeric result is served from the `pts` entry, while an unknown
result is re-derived from the cached raw body (the stored `null` itself reads
back as a miss).  For falsy bodies (bare `0`, `null`, `false`, `""`) every
lookup refetches.  After the TTL has expired, the next lookup makes exactly
one more upstream call. -/
theorem c4_cache_single_upstream_call (upstream : Json) (timeId rodada t1 t2 : Nat) :
    ∃ r1 st1,
      getRoundPointsForTeam upstream timeId rodada t1 [] = (r1, st1, 1) ∧
      cacheFind st1 (.pts timeId rodada) = some (encodePts r1, t1) ∧
      (t2 - t1 ≤ CACHE_TTL_MS → jsTruthy upstream = true →
        (getRoundPointsForTeam upstream timeId rodada t2 st1).1 = r1 ∧
        (getRoundPointsForTeam upstream timeId rodada t2 st1).2.2 = 0) ∧
      (t2 - t1 > CACHE_TTL_MS →
        (getRoundPointsForTeam upstream timeId rodada t2 st1).2.2 = 1) := by
  refine ⟨extractRoundPointsP0 upstream,
    [(.pts timeId rodada, encodePts (extractRoundPointsP0 upstream), t1),
     (.raw timeId rodada, upstream, t1)], rfl, ?_, ?_, ?_⟩
  · simp [cacheFind]
  · intro httl htruthy
    have hnexp : ¬ (t2 - t1 > CACHE_TTL_MS) := by omega
    cases hE : extractRoundPointsP0 upstream with
    | some q =>
        have g1 : cacheGet
            [(CacheKey.pts timeId rodada, Json.num q, t1),
             (CacheKey.raw timeId rodada, upstream, t1)] (CacheKey.pts timeId rodada) t2
            = (Json.num q,
               [(CacheKey.pts timeId rodada, Json.num q, t1),
                (CacheKey.raw timeId rodada, upstream, t1)]) := by
          simp [cacheGet, cacheFind, hnexp]
        constructor
        · simp [getRoundPointsForTeam, encodePts, g1, Json.isNull, decodePts]
        · simp [getRoundPointsForTeam, encodePts, g1, Json.isNull, decodePts]
    | none =>
        have g1 : cacheGet
            [(CacheKey.pts timeId rodada, Json.null, t1),
             (CacheKey.raw timeId rodada, upstream, t1)] (CacheKey.pts timeId rodada) t2
            = (Json.null,
               [(CacheKey.pts timeId rodada, Json.null, t1),
                (CacheKey.raw timeId rodada, upstream, t1)]) := by
          simp [cacheGet, cacheFind, hnexp]
        have g2 : cacheGet
            [(CacheKey.pts timeId rodada, Json.null, t1),
             (CacheKey.raw timeId rodada, upstream, t1)] (CacheKey.raw timeId rodada) t2
            = (upstream,
               [(CacheKey.pts timeId rodada, Json.null, t1),
                (CacheKey.raw timeId rodada, upstream, t1)]) := by
          simp [cacheGet, cacheFind, hnexp]
        have graw : getTimeRoundRaw upstream timeId rodada t2
            [(CacheKey.pts timeId rodada, Json.null, t1),
             (CacheKey.raw timeId rodada, upstream, t1)]
            = (upstream,
               [(CacheKey.pts timeId rodada, Json.null, t1),
                (CacheKey.raw timeId rodada, upstream, t1)], 0) := by
          simp [getTimeRoundRaw, g2, htruthy]
        constructor
        · simp [getRoundPointsForTeam, encodePts, g1, graw, Json.isNull, hE]
        · simp [getRoundPointsForTeam, encodePts, g1, graw, Json.isNull]
  · intro hexp
    have f1 : cacheFind
        [(CacheKey.pts timeId rodada, encodePts (extractRoundPointsP0 upstream), t1),
         (CacheKey.raw timeId rodada, upstream, t1)] (CacheKey.pts timeId rodada)
        = some (encodePts (extractRoundPointsP0 upstream), t1) := by
      simp [cacheFind]
    have he1 : cacheErase
        [(CacheKey.pts timeId rodada, encodePts (extractRoundPointsP0 upstream), t1),
         (CacheKey.raw timeId rodada, upstream, t1)] (CacheKey.pts timeId rodada)
        = [(CacheKey.raw timeId rodada, upstream, t1)] := by
      simp [cacheErase]
    have g1 : cacheGet
        [(CacheKey.pts timeId rodada, encodePts (extractRoundPointsP0 upstream), t1),
         (CacheKey.raw timeId rodada, upstream, t1)] (CacheKey.pts timeId rodada) t2
        = (Json.null, [(CacheKey.raw timeId rodada, upstream, t1)]) := by
      simp [cacheGet, f1, he1, hexp]
    have f2 : cacheFind [(CacheKey.raw timeId rodada, upstream, t1)]
        (CacheKey.raw timeId rodada) = some (upstream, t1) := by
      simp [cacheFind]
    have he2 : cacheErase [(CacheKey.raw timeId rodada, upstream, t1)]
        (CacheKey.raw timeId rodada) = [] := by
      simp [cacheErase]
    have g2 : cacheGet [(CacheKey.raw timeId rodada, upstream, t1)]
        (CacheKey.raw timeId rodada) t2 = (Json.null, []) := by
      simp [cacheGet, f2, he2, hexp]
    have graw : getTimeRoundRaw upstream timeId rodada t2
        [(CacheKey.raw timeId rodada, upstream, t1)]
        = (upstream, cacheSet [] (CacheKey.raw timeId rodada) upstream t2, 1) := by
      simp [getTimeRoundRaw, g2, jsTruthy]
    simp [getRoundPointsForTeam, g1, graw, Json.isNull]

/-- C4 witness: an object body (truthy) — the second lookup 500 ms later
makes no upstream call. -/
theorem c4_cache_single_upstream_call_witness :
    (getRoundPointsForTeam (Json.obj []) 1 2 500
        ((getRoundPointsForTeam (Json.obj []) 1 2 0 []).2.1)).2.2 = 0 := by
  obtain ⟨r1, st1, h1, hfind, httl, hexp⟩ :=
    c4_cache_single_upstream_call (Json.obj []) 1 2 0 500
  have hst : (getRoundPointsForTeam (Json.obj []) 1 2 0 []).2.1 = st1 := by rw [h1]
  rw [hst]
  exact (httl (by decide) rfl).2
